import Mathlib

/-!
# Verification of the cybercity driving simulation

Shallow embedding of the per-frame simulation logic of the repository:

* `src/components/ThreeScene.tsx` — the `Player` per-frame physics
  (acceleration, friction, turn dead zone, altitude clamp, proposed-position
  computation, AABB building test, NPC radius test, bounce response, bank
  lerp, impact-timer decay) and the `NpcCar` per-frame motion with its
  wrap-around bound;
* the radio-log append (`addMessage` in the game overlay component);
* `src/services/geminiService.ts` — `fetchRadioChatter`'s fallback policy.

Numbers are embedded as exact rationals.  The trigonometric functions used
by the source (through the three.js Euler/quaternion machinery) are passed
in as an oracle `T : ℚ → ℚ × ℚ` mapping an angle to its (cosine, sine)
pair; no property below needs any assumption about `T`.  The Euclidean
distance comparison `distanceTo(npc) < 3.5` is embedded as the equivalent
comparison of squared distances.
-/

/-- A three.js `Vector3`, with exact rational coordinates. -/
structure Vec3 where
  x : ℚ
  y : ℚ
  z : ℚ
deriving DecidableEq

def vadd (a b : Vec3) : Vec3 := ⟨a.x + b.x, a.y + b.y, a.z + b.z⟩

def smul (k : ℚ) (v : Vec3) : Vec3 := ⟨k * v.x, k * v.y, k * v.z⟩

/-- Squared Euclidean distance; `p.distanceTo q < r` is embedded as
`distSq p q < r^2` (both sides nonnegative, squaring is monotone). -/
def distSq (a b : Vec3) : ℚ :=
  (a.x - b.x) ^ 2 + (a.y - b.y) ^ 2 + (a.z - b.z) ^ 2

/-- The control-intent structure produced by `useControls`
(src/hooks/useControls.ts). -/
structure CarControls where
  forward : Bool
  backward : Bool
  left : Bool
  right : Bool
  up : Bool
  down : Bool
  boost : Bool
deriving DecidableEq

/-- A building obstacle (src/unnamed/part_001, `BuildingData`). -/
structure BuildingData where
  x : ℚ
  z : ℚ
  width : ℚ
  height : ℚ
  depth : ℚ
  color : String
deriving DecidableEq

/-- The mutable state of the `Player` component: `carRef.current.position`,
`carRef.current.rotation.y` (yaw), `carRef.current.rotation.z` (bank),
`speedRef.current` and `impactRef.current`.  `rotation.x` is never written
by the source and stays `0`. -/
structure PlayerSim where
  pos : Vec3
  rotY : ℚ
  rotZ : ℚ
  speed : ℚ
  impact : ℚ
deriving DecidableEq

/-! ## Rotation of a vector by the car's Euler angles

three.js keeps `object.quaternion` in sync with `object.rotation`
(Euler, default order XYZ); `applyQuaternion` therefore applies the matrix
`Rx(rotation.x) * Ry(rotation.y) * Rz(rotation.z)`. -/

def rotXapply (c s : ℚ) (v : Vec3) : Vec3 :=
  ⟨v.x, c * v.y - s * v.z, s * v.y + c * v.z⟩

def rotYapply (c s : ℚ) (v : Vec3) : Vec3 :=
  ⟨c * v.x + s * v.z, v.y, -s * v.x + c * v.z⟩

def rotZapply (c s : ℚ) (v : Vec3) : Vec3 :=
  ⟨c * v.x - s * v.y, s * v.x + c * v.y, v.z⟩

/-- Lines 185-186: `direction = (0,0,-1).applyQuaternion(carRef.current.quaternion)`.
The car's `rotation.x` is identically `0` (never written), and
`Math.cos 0 = 1`, `Math.sin 0 = 0` exactly, so the `Rx` factor is applied
with cosine `1` and sine `0`. -/
def carDirection (T : ℚ → ℚ × ℚ) (yaw bank : ℚ) : Vec3 :=
  rotXapply 1 0 (rotYapply (T yaw).1 (T yaw).2 (rotZapply (T bank).1 (T bank).2 ⟨0, 0, -1⟩))

/-! ## The Player per-frame update (ThreeScene.tsx lines 155-265) -/

/-- Line 159: `const maxSpeed = controls.boost ? 50 : 25`. -/
def maxSpeedOf (boost : Bool) : ℚ := if boost then 50 else 25

/-- Lines 164-169: forward/backward acceleration with caps, multiplicative
friction when neither intent is held.  `accel = 20 * delta`. -/
def applyAccel (c : CarControls) (dt speed : ℚ) : ℚ :=
  let maxSpeed := maxSpeedOf c.boost
  let accel := 20 * dt
  let s1 := if c.forward then min (speed + accel) maxSpeed else speed
  let s2 := if c.backward then max (s1 - accel) (-maxSpeed / 2) else s1
  if !c.forward && !c.backward then s2 * (97 / 100) else s2

/-- Lines 172-175: yaw update, gated by the dead zone
`Math.abs(speed) > 0.1`; `rotSpeed = 2.5 * delta`. -/
def applyTurn (c : CarControls) (dt speed yaw : ℚ) : ℚ :=
  let rotSpeed := (5 / 2) * dt
  if 1 / 10 < |speed| then
    let y1 := if c.left then yaw + rotSpeed else yaw
    if c.right then y1 - rotSpeed else y1
  else yaw

/-- Lines 178-182: altitude intent at rate 15, then
`y = Math.max(-18, Math.min(y, 80))`. -/
def applyAltitude (c : CarControls) (dt y : ℚ) : ℚ :=
  let y1 := if c.up then y + 15 * dt else y
  let y2 := if c.down then y1 - 15 * dt else y1
  max (-18) (min y2 80)

/-- Car half-width margin (line 195). -/
def CAR_HW : ℚ := 1

/-- Car half-length margin (line 196). -/
def CAR_HL : ℚ := 2

/-- Lines 200-211: point-vs-inflated-AABB test for one building; the point
collides when it is strictly inside the inflated footprint and strictly
below the building top `-20 + height + 1`. -/
def hitsBuilding (b : BuildingData) (p : Vec3) : Bool :=
  let bMinX := b.x - b.width / 2 - CAR_HW
  let bMaxX := b.x + b.width / 2 + CAR_HW
  let bMinZ := b.z - b.depth / 2 - CAR_HL
  let bMaxZ := b.z + b.depth / 2 + CAR_HL
  let bMaxY := -20 + b.height + 1
  decide (bMinX < p.x) && decide (p.x < bMaxX) &&
  decide (bMinZ < p.z) && decide (p.z < bMaxZ) &&
  decide (p.y < bMaxY)

/-- Lines 216-224: cheap per-axis check then true 3D distance against
radius 3.5 (embedded as squared distance against `49/4`). -/
def hitsNpc (npc p : Vec3) : Bool :=
  decide (|npc.x - p.x| < 4) && decide (|npc.z - p.z| < 4) &&
  decide (distSq p npc < 49 / 4)

/-- Lines 191-225: buildings first (short-circuit), NPCs only when no
building was hit. -/
def collidesAny (buildings : List BuildingData) (npcs : List Vec3) (p : Vec3) : Bool :=
  buildings.any (fun b => hitsBuilding b p) || npcs.any (fun n => hitsNpc n p)

/-- Speed after the acceleration/friction phase of a frame. -/
def speedAfterAccel (c : CarControls) (dt : ℚ) (s : PlayerSim) : ℚ :=
  applyAccel c dt s.speed

/-- Yaw after the rotation phase (it reads the already-updated speed). -/
def yawAfterTurn (c : CarControls) (dt : ℚ) (s : PlayerSim) : ℚ :=
  applyTurn c dt (speedAfterAccel c dt s) s.rotY

/-- Position after the altitude phase (only `y` changes, and it is clamped). -/
def posAfterAltitude (c : CarControls) (dt : ℚ) (s : PlayerSim) : Vec3 :=
  ⟨s.pos.x, applyAltitude c dt s.pos.y, s.pos.z⟩

/-- Line 187: `moveVector = direction.multiplyScalar(speed * delta)`,
with `direction` read from the already-updated yaw and the (not yet
updated) bank. -/
def frameMove (T : ℚ → ℚ × ℚ) (c : CarControls) (dt : ℚ) (s : PlayerSim) : Vec3 :=
  smul (speedAfterAccel c dt s * dt) (carDirection T (yawAfterTurn c dt s) s.rotZ)

/-- Line 188: `nextPos = position.clone().add(moveVector)`. -/
def proposedPos (T : ℚ → ℚ × ℚ) (c : CarControls) (dt : ℚ) (s : PlayerSim) : Vec3 :=
  vadd (posAfterAltitude c dt s) (frameMove T c dt s)

/-- Bank target `controls.left ? 0.35 : (controls.right ? -0.35 : 0)`
(line 239). -/
def bankTarget (c : CarControls) : ℚ :=
  if c.left then 35 / 100 else if c.right then -(35 / 100) else 0

/-- Linear interpolation `THREE.MathUtils.lerp(a, b, t) = a + (b - a) * t`;
the source uses `t = 0.1` (lines 237-241). -/
def lerp (a b t : ℚ) : ℚ := a + (b - a) * t

/-- The result of one `Player` frame: the updated mutable state and the
frame's collision verdict. -/
structure StepOut where
  state : PlayerSim
  collided : Bool
deriving DecidableEq

/-- One `useFrame` tick of the `Player` component (ThreeScene.tsx lines
155-265), camera work omitted except for its `impactRef` decrement:
acceleration/friction, dead-zoned turning, clamped altitude, proposed
position, collision test, bounce-or-commit, bank lerp, impact decay. -/
def playerStepFull (T : ℚ → ℚ × ℚ) (buildings : List BuildingData)
    (npcs : List Vec3) (c : CarControls) (dt : ℚ) (s : PlayerSim) : StepOut :=
  let speed1 := speedAfterAccel c dt s
  let yaw1 := yawAfterTurn c dt s
  let pos1 := posAfterAltitude c dt s
  let moveVector := frameMove T c dt s
  let nextPos := proposedPos T c dt s
  let collided := collidesAny buildings npcs nextPos
  let speed2 := if collided then speed1 * (-(1 / 2)) else speed1
  let impact1 := if collided then 1 / 2 else s.impact
  let pos2 := if collided then vadd pos1 (smul (-2) moveVector) else nextPos
  let rotZ1 := lerp s.rotZ (bankTarget c) (1 / 10)
  let impact2 := if 0 < impact1 then impact1 - dt else impact1
  ⟨⟨pos2, yaw1, rotZ1, speed2, impact2⟩, collided⟩

/-! ## NPC motion (ThreeScene.tsx lines 110-123) -/

/-- One `useFrame` tick of an `NpcCar`: advance on z by `speed * delta`,
cosmetic vertical bob by `sin(elapsedTime + offset) * 0.02`, then the
wrap-around bound at ±200. -/
def npcStep (T : ℚ → ℚ × ℚ) (speed offset elapsedTime dt : ℚ) (p : Vec3) : Vec3 :=
  let z1 := p.z + speed * dt
  let y1 := p.y + (T (elapsedTime + offset)).2 * (2 / 100)
  let z2 := if 200 < z1 then -200 else z1
  let z3 := if z2 < -200 then 200 else z2
  ⟨p.x, y1, z3⟩

/-! ## The radio log (GameOverlay, src/unnamed/part_000 lines 39-44) -/

/-- A radio-log entry (src/unnamed/part_001, `RadioMessage`). -/
structure RadioMessage where
  id : String
  sender : String
  text : String
  timestamp : String
deriving DecidableEq

/-- The overlay's `addMessage`: `setMessages(prev => [...prev.slice(-4), newEntry])`
— keep the last four entries and append the new one.  `prev.slice(-4)` is
`prev.drop (prev.length - 4)` (all of `prev` when it has at most four
entries).  The generated id and the wall-clock timestamp are passed in. -/
def addMessage (prev : List RadioMessage) (id sender text timestamp : String) :
    List RadioMessage :=
  prev.drop (prev.length - 4) ++ [⟨id, sender, text, timestamp⟩]

/-! ## The radio-chatter service (src/services/geminiService.ts) -/

/-- The outcome of the external `generateContent` call, as `fetchRadioChatter`
observes it: either the call throws, or it returns a response whose `text`
field is absent, empty, or a nonempty string (`if (response.text)` is JS
truthiness: absent and `""` are falsy). -/
inductive GenOutcome where
  | thrown
  | returned (text : Option String)
deriving DecidableEq

/-- Lines 16-37: `fetchRadioChatter` returns the trimmed text when the
response text is truthy, a fixed fallback for an empty response, and a
fixed fallback when the call throws. -/
def fetchRadioChatter : GenOutcome → String
  | .returned (some t) =>
      if t = "" then "Signal encrypted... Decryption failed." else t.trim
  | .returned none => "Signal encrypted... Decryption failed."
  | .thrown => "Signal interference detected... Reconnecting..."

/-! ## Helper lemmas -/

/-- The car's movement direction depends only on the yaw: the `Rz(bank)`
factor fixes `(0,0,-1)` and the `Rx` factor is the identity. -/
theorem carDirection_eval (T : ℚ → ℚ × ℚ) (a b : ℚ) :
    carDirection T a b = ⟨-(T a).2, 0, -(T a).1⟩ := by
  simp only [carDirection, rotXapply, rotYapply, rotZapply, Vec3.mk.injEq]
  refine ⟨by ring, by ring, by ring⟩

/-- The frame's movement vector has no vertical component. -/
theorem frameMove_y (T : ℚ → ℚ × ℚ) (c : CarControls) (dt : ℚ) (s : PlayerSim) :
    (frameMove T c dt s).y = 0 := by
  simp [frameMove, smul, carDirection_eval]

/-! ## C1 — the reverse speed cap and the boost flag -/

/-- C1 counterexample: starting from speed 0 with backward intent held for
one second, the updated speed is −20 with boost but −12.5 without: the
reverse bound the code applies is `-maxSpeed / 2`, which boost changes, and
the boosted result lies strictly below the unboosted bound. -/
theorem boost_raises_reverse_cap_cex :
    applyAccel ⟨false, true, false, false, false, false, true⟩ 1 0 = -20 ∧
    applyAccel ⟨false, true, false, false, false, false, false⟩ 1 0 = -(25 / 2) ∧
    applyAccel ⟨false, true, false, false, false, false, true⟩ 1 0 < -(25 / 2) := by
  norm_num [applyAccel, maxSpeedOf]

/-- C1 amended: with backward intent held, the updated speed is bounded
below by `-maxSpeed / 2` where `maxSpeed` is the boost-dependent cap, so
boost raises the reverse cap (in magnitude) from 12.5 to 25 along with the
forward cap. -/
theorem reverse_cap_boost_dependent (c : CarControls) (dt speed : ℚ)
    (h : c.backward = true) :
    -maxSpeedOf c.boost / 2 ≤ applyAccel c dt speed ∧
    maxSpeedOf true = 50 ∧ maxSpeedOf false = 25 := by
  refine ⟨?_, rfl, rfl⟩
  simp only [applyAccel, h, Bool.not_true, Bool.and_false, Bool.false_and,
    if_true, if_false]
  exact le_max_right _ _

/-- C1 witness: the amended bound at a concrete input. -/
theorem reverse_cap_boost_dependent_witness :
    -maxSpeedOf true / 2 ≤ applyAccel ⟨false, true, false, false, false, false, true⟩ 1 0 ∧
    maxSpeedOf true = 50 ∧ maxSpeedOf false = 25 :=
  reverse_cap_boost_dependent ⟨false, true, false, false, false, false, true⟩ 1 0 rfl

/-! ## C2 — collision response -/

/-- C2 counterexample: a frame with no intent held, pre-step speed 10 and a
collision.  Friction runs before the bounce, so the post-step speed is
`10 * 0.97 * (-0.5) = -4.85`, not `10 * (-0.5)`; and the impact timer,
set to `0.5`, is already decremented by `delta` within the same frame. -/
theorem bounce_scales_post_friction_speed_cex :
    (playerStepFull (fun _ => (1, 0)) [⟨0, 0, 10, 50, 10, "c"⟩] []
      ⟨false, false, false, false, false, false, false⟩ (1 / 60)
      ⟨⟨0, 0, 0⟩, 0, 0, 10, 0⟩).collided = true ∧
    (playerStepFull (fun _ => (1, 0)) [⟨0, 0, 10, 50, 10, "c"⟩] []
      ⟨false, false, false, false, false, false, false⟩ (1 / 60)
      ⟨⟨0, 0, 0⟩, 0, 0, 10, 0⟩).state.speed = -(97 / 20) ∧
    (playerStepFull (fun _ => (1, 0)) [⟨0, 0, 10, 50, 10, "c"⟩] []
      ⟨false, false, false, false, false, false, false⟩ (1 / 60)
      ⟨⟨0, 0, 0⟩, 0, 0, 10, 0⟩).state.speed ≠ 10 * (-(1 / 2)) ∧
    (playerStepFull (fun _ => (1, 0)) [⟨0, 0, 10, 50, 10, "c"⟩] []
      ⟨false, false, false, false, false, false, false⟩ (1 / 60)
      ⟨⟨0, 0, 0⟩, 0, 0, 10, 0⟩).state.impact ≠ 1 / 2 := by
  norm_num [playerStepFull, speedAfterAccel, yawAfterTurn, posAfterAltitude, frameMove,
    proposedPos, applyAccel, applyTurn, applyAltitude, maxSpeedOf, carDirection,
    rotXapply, rotYapply, rotZapply, collidesAny, hitsBuilding, hitsNpc, distSq,
    CAR_HW, CAR_HL, vadd, smul, lerp, bankTarget, List.any]

/-- C2 amended: on a collision frame the committed position is the
position after the rotation/altitude phases plus `-2` times the frame's
movement vector — in particular `x` and `z` equal the pre-step values plus
the correction, the proposed position is not committed — the post-step
speed is the friction/acceleration-updated speed times `-0.5`, and the
impact timer is set to `0.5` and then decremented by the frame time within
the same frame. -/
theorem collision_response_exact (T : ℚ → ℚ × ℚ) (buildings : List BuildingData)
    (npcs : List Vec3) (c : CarControls) (dt : ℚ) (s : PlayerSim)
    (h : (playerStepFull T buildings npcs c dt s).collided = true) :
    (playerStepFull T buildings npcs c dt s).state.pos =
      vadd (posAfterAltitude c dt s) (smul (-2) (frameMove T c dt s)) ∧
    (playerStepFull T buildings npcs c dt s).state.pos.x =
      s.pos.x - 2 * (frameMove T c dt s).x ∧
    (playerStepFull T buildings npcs c dt s).state.pos.z =
      s.pos.z - 2 * (frameMove T c dt s).z ∧
    (playerStepFull T buildings npcs c dt s).state.speed =
      speedAfterAccel c dt s * (-(1 / 2)) ∧
    (playerStepFull T buildings npcs c dt s).state.impact = 1 / 2 - dt := by
  have hc : collidesAny buildings npcs (proposedPos T c dt s) = true := by
    simpa [playerStepFull] using h
  simp only [playerStepFull, hc, if_true]
  refine ⟨trivial, ?_, ?_, trivial, by norm_num⟩
  · simp only [vadd, smul, posAfterAltitude]
    ring
  · simp only [vadd, smul, posAfterAltitude]
    ring

/-- C2 witness: the amended collision response at a concrete collision
frame (speed conjunct extracted). -/
theorem collision_response_exact_witness :
    (playerStepFull (fun _ => (1, 0)) [⟨0, 0, 10, 50, 10, "c"⟩] []
      ⟨false, false, false, false, false, false, false⟩ (1 / 60)
      ⟨⟨0, 0, 0⟩, 0, 0, 10, 0⟩).state.speed =
      speedAfterAccel ⟨false, false, false, false, false, false, false⟩ (1 / 60)
        ⟨⟨0, 0, 0⟩, 0, 0, 10, 0⟩ * (-(1 / 2)) :=
  (collision_response_exact (fun _ => (1, 0)) [⟨0, 0, 10, 50, 10, "c"⟩] []
    ⟨false, false, false, false, false, false, false⟩ (1 / 60)
    ⟨⟨0, 0, 0⟩, 0, 0, 10, 0⟩
    (by norm_num [playerStepFull, speedAfterAccel, yawAfterTurn, posAfterAltitude,
      frameMove, proposedPos, applyAccel, applyTurn, applyAltitude, maxSpeedOf,
      carDirection, rotXapply, rotYapply, rotZapply, collidesAny, hitsBuilding,
      hitsNpc, distSq, CAR_HW, CAR_HL, vadd, smul, lerp, bankTarget,
      List.any])).2.2.2.1

/-! ## C3 — the altitude clamp invariant -/

/-- C3: for every frame and every intent the post-step altitude lies in
`[-18, 80]`; the committed `y` is exactly the clamped altitude-phase value,
because the movement vector and the collision correction have no vertical
component. -/
theorem altitude_always_clamped (T : ℚ → ℚ × ℚ) (buildings : List BuildingData)
    (npcs : List Vec3) (c : CarControls) (dt : ℚ) (s : PlayerSim) :
    -18 ≤ (playerStepFull T buildings npcs c dt s).state.pos.y ∧
    (playerStepFull T buildings npcs c dt s).state.pos.y ≤ 80 ∧
    (playerStepFull T buildings npcs c dt s).state.pos.y =
      applyAltitude c dt s.pos.y := by
  have hmv := frameMove_y T c dt s
  have hpos : (playerStepFull T buildings npcs c dt s).state.pos.y =
      applyAltitude c dt s.pos.y := by
    simp only [playerStepFull, proposedPos, posAfterAltitude, vadd, smul]
    split <;> simp [hmv]
  refine ⟨?_, ?_, hpos⟩ <;> rw [hpos] <;> simp only [applyAltitude]
  · exact le_max_left _ _
  · exact max_le (by norm_num) (min_le_right _ _)

/-! ## C4 — the bank angle is noninterfering -/

/-- The movement vector does not depend on the bank angle. -/
theorem frameMove_bank_free (T : ℚ → ℚ × ℚ) (c : CarControls) (dt : ℚ)
    (s : PlayerSim) (bank : ℚ) :
    frameMove T c dt (⟨s.pos, s.rotY, bank, s.speed, s.impact⟩ : PlayerSim) = frameMove T c dt s := by
  simp [frameMove, carDirection_eval, speedAfterAccel, yawAfterTurn]

/-- C4: two states identical except for the bank angle produce, under the
same intent, frame time, buildings and NPC positions, the same collision
verdict, speed, committed position, heading and impact timer. -/
theorem bank_angle_noninterference (T : ℚ → ℚ × ℚ) (buildings : List BuildingData)
    (npcs : List Vec3) (c : CarControls) (dt : ℚ) (s : PlayerSim) (bank : ℚ) :
    (playerStepFull T buildings npcs c dt (⟨s.pos, s.rotY, bank, s.speed, s.impact⟩ : PlayerSim)).collided =
      (playerStepFull T buildings npcs c dt s).collided ∧
    (playerStepFull T buildings npcs c dt (⟨s.pos, s.rotY, bank, s.speed, s.impact⟩ : PlayerSim)).state.speed =
      (playerStepFull T buildings npcs c dt s).state.speed ∧
    (playerStepFull T buildings npcs c dt (⟨s.pos, s.rotY, bank, s.speed, s.impact⟩ : PlayerSim)).state.pos =
      (playerStepFull T buildings npcs c dt s).state.pos ∧
    (playerStepFull T buildings npcs c dt (⟨s.pos, s.rotY, bank, s.speed, s.impact⟩ : PlayerSim)).state.rotY =
      (playerStepFull T buildings npcs c dt s).state.rotY ∧
    (playerStepFull T buildings npcs c dt (⟨s.pos, s.rotY, bank, s.speed, s.impact⟩ : PlayerSim)).state.impact =
      (playerStepFull T buildings npcs c dt s).state.impact := by
  have hm := frameMove_bank_free T c dt s bank
  have hp : proposedPos T c dt (⟨s.pos, s.rotY, bank, s.speed, s.impact⟩ : PlayerSim) = proposedPos T c dt s := by
    simp [proposedPos, hm, posAfterAltitude]
  simp [playerStepFull, hm, hp, speedAfterAccel, yawAfterTurn, posAfterAltitude]

/-! ## C5 — the turn dead zone -/

/-- C5: when the frame's (friction/acceleration-updated) speed has absolute
value at most 0.1, the heading survives the step unchanged whatever the
turn intents are. -/
theorem deadzone_heading_unchanged (T : ℚ → ℚ × ℚ) (buildings : List BuildingData)
    (npcs : List Vec3) (c : CarControls) (dt : ℚ) (s : PlayerSim)
    (h : |speedAfterAccel c dt s| ≤ 1 / 10) :
    (playerStepFull T buildings npcs c dt s).state.rotY = s.rotY := by
  have hy : yawAfterTurn c dt s = s.rotY := by
    simp only [yawAfterTurn, applyTurn]
    rw [if_neg (not_lt.mpr h)]
  simp [playerStepFull, hy]

/-- C5 witness: a stationary car with left intent held keeps heading 0. -/
theorem deadzone_heading_unchanged_witness :
    (playerStepFull (fun _ => (1, 0)) [] []
      ⟨false, false, true, false, false, false, false⟩ (1 / 60)
      ⟨⟨0, 0, 0⟩, 0, 0, 0, 0⟩).state.rotY = 0 :=
  deadzone_heading_unchanged (fun _ => (1, 0)) [] []
    ⟨false, false, true, false, false, false, false⟩ (1 / 60)
    ⟨⟨0, 0, 0⟩, 0, 0, 0, 0⟩
    (by norm_num [speedAfterAccel, applyAccel, maxSpeedOf])

/-! ## C6 — the NPC wrap invariant -/

/-- C6: after one NPC frame the primary-axis coordinate lies in
`[-200, 200]`; overshooting the positive bound teleports to `-200`,
undershooting the negative bound teleports to `200`, and an in-range
advance is committed unchanged. -/
theorem npc_wrap_invariant (T : ℚ → ℚ × ℚ) (speed offset elapsedTime dt : ℚ)
    (p : Vec3) :
    (-200 ≤ (npcStep T speed offset elapsedTime dt p).z ∧
      (npcStep T speed offset elapsedTime dt p).z ≤ 200) ∧
    (200 < p.z + speed * dt → (npcStep T speed offset elapsedTime dt p).z = -200) ∧
    (p.z + speed * dt < -200 → (npcStep T speed offset elapsedTime dt p).z = 200) ∧
    (-200 ≤ p.z + speed * dt → p.z + speed * dt ≤ 200 →
      (npcStep T speed offset elapsedTime dt p).z = p.z + speed * dt) := by
  simp only [npcStep]
  split_ifs with h1 h2 h2 <;>
    refine ⟨⟨by linarith, by linarith⟩, fun hgt => by linarith,
      fun hlt => by linarith, fun hge hle => by linarith⟩

/-! ## C7 — friction decay -/

/-- C7 counterexample: at speed 0 a no-intent frame leaves the speed's
magnitude unchanged, so the decrease is not strict for every speed. -/
theorem friction_not_strict_at_zero_cex :
    applyAccel ⟨false, false, false, false, false, false, false⟩ (1 / 60) 0 = 0 ∧
    ¬ |applyAccel ⟨false, false, false, false, false, false, false⟩ (1 / 60) 0| <
        |(0 : ℚ)| := by
  norm_num [applyAccel, maxSpeedOf]

/-- C7 amended: with neither forward nor backward intent the new speed is
exactly the old times the friction factor 0.97; for nonzero speed the
magnitude strictly decreases and the sign is preserved; speed 0 stays 0. -/
theorem friction_decay_nonzero (c : CarControls) (dt speed : ℚ)
    (hf : c.forward = false) (hb : c.backward = false) :
    applyAccel c dt speed = speed * (97 / 100) ∧
    (speed ≠ 0 → |applyAccel c dt speed| < |speed|) ∧
    (0 < speed → 0 < applyAccel c dt speed) ∧
    (speed < 0 → applyAccel c dt speed < 0) ∧
    (speed = 0 → applyAccel c dt speed = 0) := by
  have h : applyAccel c dt speed = speed * (97 / 100) := by
    simp [applyAccel, hf, hb]
  refine ⟨h, ?_, ?_, ?_, ?_⟩ <;> rw [h] <;> intro hs
  · calc |speed * (97 / 100)| = |speed| * (97 / 100) := by
          rw [abs_mul]; norm_num
      _ < |speed| * 1 := by
          have := abs_pos.mpr hs
          nlinarith
      _ = |speed| := mul_one _
  · positivity
  · exact mul_neg_of_neg_of_pos hs (by norm_num)
  · simp [hs]

/-- C7 witness: the amended friction facts at speed 10. -/
theorem friction_decay_nonzero_witness :
    applyAccel ⟨false, false, false, false, false, false, false⟩ (1 / 60) 10 =
      10 * (97 / 100) :=
  (friction_decay_nonzero ⟨false, false, false, false, false, false, false⟩
    (1 / 60) 10 rfl rfl).1

/-! ## C8 — the radio log is bounded -/

/-- One log append keeps `min (length) 4` old entries plus the new one. -/
theorem addMessage_length (prev : List RadioMessage) (id sender text timestamp : String) :
    (addMessage prev id sender text timestamp).length = min prev.length 4 + 1 := by
  simp only [addMessage, List.length_append, List.length_drop, List.length_cons,
    List.length_nil]
  omega

/-- Any sequence of appends starting from a log of at most five entries
keeps the log at five entries or fewer. -/
theorem radio_fold_aux (calls : List (String × String × String × String)) :
    ∀ log : List RadioMessage, log.length ≤ 5 →
      (calls.foldl (fun l q => addMessage l q.1 q.2.1 q.2.2.1 q.2.2.2) log).length ≤ 5 := by
  induction calls with
  | nil => intro log h; simpa using h
  | cons q rest ih =>
      intro log h
      refine ih _ ?_
      rw [addMessage_length]
      omega

/-- C8: every `addMessage` call appends exactly one entry and truncates to
the five most recent entries (the result is the last-five suffix of the old
log with the new entry appended), so every log reachable from the empty log
by `addMessage` calls has at most five entries. -/
theorem radio_log_bounded :
    (∀ (prev : List RadioMessage) (id sender text timestamp : String),
      (addMessage prev id sender text timestamp).length = min prev.length 4 + 1 ∧
      (addMessage prev id sender text timestamp).length ≤ 5 ∧
      addMessage prev id sender text timestamp =
        (prev ++ [(⟨id, sender, text, timestamp⟩ : RadioMessage)]).drop
          ((prev ++ [(⟨id, sender, text, timestamp⟩ : RadioMessage)]).length - 5)) ∧
    (∀ calls : List (String × String × String × String),
      (calls.foldl (fun l q => addMessage l q.1 q.2.1 q.2.2.1 q.2.2.2) []).length ≤ 5) := by
  constructor
  · intro prev id sender text timestamp
    refine ⟨addMessage_length prev id sender text timestamp, ?_, ?_⟩
    · rw [addMessage_length]; omega
    · have h1 : (prev ++ [(⟨id, sender, text, timestamp⟩ : RadioMessage)]).length - 5 =
          prev.length - 4 := by
        simp only [List.length_append, List.length_cons, List.length_nil]
        omega
      rw [h1, List.drop_append_of_le_length (Nat.sub_le _ _)]
      rfl
  · intro calls
    exact radio_fold_aux calls [] (by simp)

/-! ## C9 — the radio-chatter fallback policy -/

/-- C9: `fetchRadioChatter` always yields a string: the trimmed generated
text when the response text is nonempty, and otherwise one of the two fixed
in-universe fallback strings. -/
theorem radio_chatter_total (r : GenOutcome) :
    (∃ t, r = .returned (some t) ∧ t ≠ "" ∧ fetchRadioChatter r = t.trim) ∨
    fetchRadioChatter r = "Signal encrypted... Decryption failed." ∨
    fetchRadioChatter r = "Signal interference detected... Reconnecting..." := by
  match r with
  | .thrown => exact Or.inr (Or.inr rfl)
  | .returned none => exact Or.inr (Or.inl rfl)
  | .returned (some t) =>
      by_cases h : t = ""
      · exact Or.inr (Or.inl (by simp [fetchRadioChatter, h]))
      · exact Or.inl ⟨t, rfl, h, by simp [fetchRadioChatter, h]⟩

/-! ## C10 — the stuck-state edge case -/

/-- One frame of the stuck state: a pre-step position already inside a
building's inflated footprint, zero speed and no movement intent give a
collision verdict with position and speed unchanged and the impact timer
re-armed to 0.5 (then decremented by the frame time). -/
theorem stuck_frame (T : ℚ → ℚ × ℚ) (buildings : List BuildingData)
    (npcs : List Vec3) (c : CarControls) (dt : ℚ) (s : PlayerSim)
    (b : BuildingData) (hb : b ∈ buildings) (hhit : hitsBuilding b s.pos = true)
    (hspd : s.speed = 0) (hf : c.forward = false) (hbk : c.backward = false)
    (hu : c.up = false) (hd : c.down = false)
    (hy1 : -18 ≤ s.pos.y) (hy2 : s.pos.y ≤ 80) :
    (playerStepFull T buildings npcs c dt s).collided = true ∧
    (playerStepFull T buildings npcs c dt s).state.pos = s.pos ∧
    (playerStepFull T buildings npcs c dt s).state.speed = 0 ∧
    (playerStepFull T buildings npcs c dt s).state.impact = 1 / 2 - dt := by
  have hsp : speedAfterAccel c dt s = 0 := by
    simp [speedAfterAccel, applyAccel, hf, hbk, hspd]
  have hpa : posAfterAltitude c dt s = s.pos := by
    simp [posAfterAltitude, applyAltitude, hu, hd, min_eq_left hy2, max_eq_right hy1]
  have hmv : frameMove T c dt s = ⟨0, 0, 0⟩ := by
    simp [frameMove, hsp, smul]
  have hpp : proposedPos T c dt s = s.pos := by
    simp [proposedPos, hpa, hmv, vadd]
  have hcol : collidesAny buildings npcs (proposedPos T c dt s) = true := by
    rw [hpp]
    simp only [collidesAny, Bool.or_eq_true, List.any_eq_true]
    exact Or.inl ⟨b, hb, hhit⟩
  refine ⟨by simpa [playerStepFull] using hcol, ?_, ?_, ?_⟩
  · simp [playerStepFull, hcol, hpa, hmv, vadd, smul]
  · simp [playerStepFull, hcol, hsp]
  · simp only [playerStepFull, hcol, if_true]
    norm_num

/-- C10: in the stuck state the step reports a collision yet leaves
position and speed unchanged (the movement vector is zero, so the
correction is zero and the bounce scales zero speed), re-arms the impact
timer to 0.5 (decremented by the frame time within the frame), and the
following frame repeats the identical position and speed. -/
theorem stuck_state_fixpoint (T : ℚ → ℚ × ℚ) (buildings : List BuildingData)
    (npcs : List Vec3) (c : CarControls) (dt : ℚ) (s : PlayerSim)
    (b : BuildingData) (hb : b ∈ buildings) (hhit : hitsBuilding b s.pos = true)
    (hspd : s.speed = 0) (hf : c.forward = false) (hbk : c.backward = false)
    (hu : c.up = false) (hd : c.down = false)
    (hy1 : -18 ≤ s.pos.y) (hy2 : s.pos.y ≤ 80) :
    (playerStepFull T buildings npcs c dt s).collided = true ∧
    (playerStepFull T buildings npcs c dt s).state.pos = s.pos ∧
    (playerStepFull T buildings npcs c dt s).state.speed = 0 ∧
    (playerStepFull T buildings npcs c dt s).state.impact = 1 / 2 - dt ∧
    (playerStepFull T buildings npcs c dt
      (playerStepFull T buildings npcs c dt s).state).collided = true ∧
    (playerStepFull T buildings npcs c dt
      (playerStepFull T buildings npcs c dt s).state).state.pos = s.pos ∧
    (playerStepFull T buildings npcs c dt
      (playerStepFull T buildings npcs c dt s).state).state.speed = 0 := by
  obtain ⟨h1, h2, h3, h4⟩ :=
    stuck_frame T buildings npcs c dt s b hb hhit hspd hf hbk hu hd hy1 hy2
  have h5 := stuck_frame T buildings npcs c dt
    (playerStepFull T buildings npcs c dt s).state b hb
    (by rw [h2]; exact hhit) h3 hf hbk hu hd
    (by rw [h2]; exact hy1) (by rw [h2]; exact hy2)
  exact ⟨h1, h2, h3, h4, h5.1, by rw [h5.2.1, h2], h5.2.2.1⟩

/-- C10 witness: the stuck state at a concrete input — a car at the origin
inside the only building, zero speed, no intent. -/
theorem stuck_state_fixpoint_witness :
    (playerStepFull (fun _ => (1, 0)) [⟨0, 0, 10, 50, 10, "c"⟩] []
      ⟨false, false, false, false, false, false, false⟩ (1 / 60)
      ⟨⟨0, 0, 0⟩, 0, 0, 0, 0⟩).collided = true ∧
    (playerStepFull (fun _ => (1, 0)) [⟨0, 0, 10, 50, 10, "c"⟩] []
      ⟨false, false, false, false, false, false, false⟩ (1 / 60)
      ⟨⟨0, 0, 0⟩, 0, 0, 0, 0⟩).state.pos = (⟨⟨0, 0, 0⟩, 0, 0, 0, 0⟩ : PlayerSim).pos ∧
    (playerStepFull (fun _ => (1, 0)) [⟨0, 0, 10, 50, 10, "c"⟩] []
      ⟨false, false, false, false, false, false, false⟩ (1 / 60)
      ⟨⟨0, 0, 0⟩, 0, 0, 0, 0⟩).state.speed = 0 :=
  have h := stuck_state_fixpoint (fun _ => (1, 0)) [⟨0, 0, 10, 50, 10, "c"⟩] []
    ⟨false, false, false, false, false, false, false⟩ (1 / 60)
    ⟨⟨0, 0, 0⟩, 0, 0, 0, 0⟩ ⟨0, 0, 10, 50, 10, "c"⟩ (List.mem_singleton.mpr rfl)
    (by norm_num [hitsBuilding, CAR_HW, CAR_HL]) rfl rfl rfl rfl rfl
    (by norm_num) (by norm_num)
  ⟨h.1, h.2.1, h.2.2.1⟩
